import Mathlib

/-!
# Verification of the `/api/analyze` conversion-killer engine

Shallow embedding of the heuristic extraction-and-scoring engine and the
request handlers of the `framer-analyse-tool` repository
(`src/api/analyze.ts` and the sibling handler iterations), together with
proofs and refutations of the specification's claims.

Strings are modelled as `List Char` (`String.data`); the JavaScript regular
expressions used by the source are embedded as direct scanning functions
with the exact JS semantics they rely on (leftmost match, greedy `[^>]*`,
lazy `(.*?)` whose dot excludes line terminators, case-insensitive flags).
The ambient clock read `new Date().getFullYear()` is made an explicit
`currentYear` argument; external collaborators (page fetch, PageSpeed API,
LLM API, KV store, URL parser) are oracle inputs to the handler models.
-/

/-- ASCII lower-casing of a character, as applied by the `i` regex flag and
`String.prototype.toLowerCase` on the ASCII keywords the source compares
against. -/
def asciiLower (c : Char) : Char :=
  if 'A' ≤ c && c ≤ 'Z' then Char.ofNat (c.toNat + 32) else c

/-- Case-insensitive character comparison (ASCII fold). -/
def ciEq (a b : Char) : Bool := asciiLower a == asciiLower b

/-- Case-sensitive list prefix test (JS `String.prototype.startsWith`). -/
def hasPrefixCl : List Char → List Char → Bool
  | _, [] => true
  | [], _ :: _ => false
  | a :: as, b :: bs => a == b && hasPrefixCl as bs

/-- Case-insensitive list prefix test. -/
def hasPrefixCI : List Char → List Char → Bool
  | _, [] => true
  | [], _ :: _ => false
  | a :: as, b :: bs => ciEq a b && hasPrefixCI as bs

/-- Case-sensitive substring test (JS `String.prototype.includes`). -/
def containsCl : List Char → List Char → Bool
  | [], pat => hasPrefixCl [] pat
  | a :: as, pat => hasPrefixCl (a :: as) pat || containsCl as pat

/-- Case-insensitive substring test (a `/literal/i.test(s)` call). -/
def containsCI : List Char → List Char → Bool
  | [], pat => hasPrefixCI [] pat
  | a :: as, pat => hasPrefixCI (a :: as) pat || containsCI as pat

/-- JS line terminators, which the regex dot `.` never matches. -/
def isLineTerm (c : Char) : Bool :=
  c == '\n' || c == '\r' || c == '\u2028' || c == '\u2029'

/-- JS whitespace (`\s`, `trim`): the ASCII space family together with the
no-break space, the Unicode line separators and the BOM. -/
def isJsSpace (c : Char) : Bool :=
  c == ' ' || c == '\t' || c == '\n' || c == '\r' || c == '\x0b' || c == '\x0c' ||
  c == '\u00a0' || c == '\u2028' || c == '\u2029' || c == '\ufeff'

/-- `String.prototype.trim`. -/
def jsTrim (s : List Char) : List Char :=
  ((s.dropWhile isJsSpace).reverse.dropWhile isJsSpace).reverse

/-- ASCII lower-casing of a whole list (`toLowerCase` on the texts the
source lower-cases before comparing with ASCII keyword lists). -/
def jsLower (s : List Char) : List Char := s.map asciiLower

/-- One step of `replace(/\s+/g, ' ')`: the flag records whether the
previous character was part of a whitespace run already replaced. -/
def collapseWsAux : Bool → List Char → List Char
  | _, [] => []
  | prevSpace, c :: cs =>
    if isJsSpace c then
      if prevSpace then collapseWsAux true cs
      else ' ' :: collapseWsAux true cs
    else c :: collapseWsAux false cs

/-- `replace(/\s+/g, ' ')`. -/
def collapseWs (s : List Char) : List Char := collapseWsAux false s

/-- Fueled scanner for `replace(/<[^>]+>/g, '')`: at a `<`, a greedy
nonempty run of non-`>` characters followed by `>` is removed; otherwise
the character is kept and scanning resumes one position later, exactly as
the JS global replace does. Each fuel unit consumes at least one input
character, so `fuel = s.length` always suffices. -/
def stripTagsAux : Nat → List Char → List Char
  | 0, s => s
  | _ + 1, [] => []
  | f + 1, c :: cs =>
    if c == '<' then
      let run := cs.takeWhile (fun d => !(d == '>'))
      if run.length == 0 then c :: stripTagsAux f cs
      else
        match cs.drop run.length with
        | '>' :: rest => stripTagsAux f rest
        | _ => c :: stripTagsAux f cs
    else c :: stripTagsAux f cs

/-- `replace(/<[^>]+>/g, '')`. -/
def stripTags (s : List Char) : List Char := stripTagsAux s.length s

/-- The source's `cleanText`:
`text.trim().replace(/<[^>]+>/g, '').replace(/\s+/g, ' ')`. -/
def cleanText (s : List Char) : List Char := collapseWs (stripTags (jsTrim s))

/-- Number of characters the open-tag part `<TAG[^>]*>` of the source's
tag regexes consumes at the head of `s`, if it matches there: the literal
`<TAG` (case-insensitively), then the greedy run of non-`>` characters,
then `>`. -/
def tagOpenLen (tag : List Char) (s : List Char) : Option Nat :=
  if hasPrefixCI s ('<' :: tag) then
    let rest := s.drop (tag.length + 1)
    let run := rest.takeWhile (fun d => !(d == '>'))
    match rest.drop run.length with
    | '>' :: _ => some (tag.length + 1 + run.length + 1)
    | _ => none
  else none

/-- Length of the lazy group `(.*?)` at the head of `s` when followed by
the literal `close` (case-insensitively): the shortest prefix free of line
terminators after which `close` starts. -/
def lazyLen (close : List Char) : List Char → Option Nat
  | [] => if close.isEmpty then some 0 else none
  | c :: cs =>
    if hasPrefixCI (c :: cs) close then some 0
    else if isLineTerm c then none
    else (lazyLen close cs).map (· + 1)

/-- The closing literal `</TAG>` of a tag regex. -/
def closeOf (tag : List Char) : List Char := '<' :: '/' :: (tag ++ ['>'])

/-- Match of `<TAG[^>]*>(.*?)</TAG>` anchored at the head of `s`,
returning the lengths of the open-tag part and of the captured group. -/
def tagAt (tag : List Char) (s : List Char) : Option (Nat × Nat) :=
  match tagOpenLen tag s with
  | none => none
  | some ol =>
    match lazyLen (closeOf tag) (s.drop ol) with
    | none => none
    | some il => some (ol, il)

/-- `content.match(/<TAG[^>]*>(.*?)<\/TAG>/i)`: the captured group of the
leftmost match, if any. -/
def firstTagMatch (tag : List Char) : List Char → Option (List Char)
  | [] => none
  | c :: cs =>
    match tagAt tag (c :: cs) with
    | some (ol, il) => some (((c :: cs).drop ol).take il)
    | none => firstTagMatch tag cs

/-- Fueled worker for the global tag match: after each match the scan
resumes past its end; each fuel unit consumes at least one character. -/
def allTagMatchesAux (tag : List Char) : Nat → List Char → List (List Char)
  | 0, _ => []
  | _ + 1, [] => []
  | f + 1, c :: cs =>
    match tagAt tag (c :: cs) with
    | some (ol, il) =>
      ((c :: cs).take (ol + il + (closeOf tag).length)) ::
        allTagMatchesAux tag f ((c :: cs).drop (ol + il + (closeOf tag).length))
    | none => allTagMatchesAux tag f cs

/-- `content.match(/<TAG[^>]*>(.*?)<\/TAG>/ig)`: the list of whole
matches (`null` in JS is the empty list here). -/
def allTagMatches (tag : List Char) (s : List Char) : List (List Char) :=
  allTagMatchesAux tag s.length s

/-- Search for `LIT[^>]+TAIL` (case-insensitive) where `tail` recognises
the part after the mandatory nonempty run of non-`>` characters; this is
the shape of the `<meta[^>]+name=…>` and `<video[^>]+autoplay` tests.
The run is scanned character by character so every backtracking split the
JS engine would try is tried. -/
def splitSearch (tail : List Char → Bool) : List Char → Bool
  | [] => false
  | c :: cs => if c == '>' then false else (tail cs || splitSearch tail cs)

/-- Does `LIT[^>]+TAIL` match anywhere in `s`? -/
def attrSearch (openLit : List Char) (tail : List Char → Bool) : List Char → Bool
  | [] => false
  | c :: cs =>
    (hasPrefixCI (c :: cs) openLit && splitSearch tail ((c :: cs).drop openLit.length)) ||
      attrSearch openLit tail cs

/-- A quote character, the class `["']`. -/
def quoteChar (c : Char) : Bool := c == '"' || c == '\''

/-- The tail `name=["']description["']` of the meta-description regex. -/
def nameDescTail (s : List Char) : Bool :=
  hasPrefixCI s ('n' :: 'a' :: 'm' :: 'e' :: '=' :: []) &&
    (match s.drop 5 with
     | q1 :: rest =>
       quoteChar q1 && hasPrefixCI rest "description".data &&
         (match rest.drop 11 with
          | q2 :: _ => quoteChar q2
          | [] => false)
     | [] => false)

/-- `/<meta[^>]+name=["']description["']/i.test(content)`. -/
def metaDescTest (s : List Char) : Bool := attrSearch "<meta".data nameDescTail s

/-- `/<video[^>]+autoplay/i` (and the audio twin) tail. -/
def autoplayTail (s : List Char) : Bool := hasPrefixCI s "autoplay".data

/-- Decimal digit value. -/
def digitVal (c : Char) : Option Nat :=
  if '0' ≤ c && c ≤ '9' then some (c.toNat - 48) else none

/-- The group `(\d{4})` at the head of `s`: the numeric value together
with the four matched digit characters (whose spelling, not value, is
interpolated into the defect detail). -/
def fourDigits : List Char → Option (Nat × List Char)
  | a :: b :: c :: d :: _ =>
    match digitVal a, digitVal b, digitVal c, digitVal d with
    | some x, some y, some z, some w => some (x * 1000 + y * 100 + z * 10 + w, [a, b, c, d])
    | _, _, _, _ => none
  | _ => none

/-- Match of `©\s*(\d{4})` anchored at the head of `s`. -/
def copyrightAt : List Char → Option (Nat × List Char)
  | [] => none
  | c :: cs => if c == '©' then fourDigits (cs.dropWhile isJsSpace) else none

/-- `content.match(/©\s*(\d{4})/)`: leftmost match. -/
def copyrightYear : List Char → Option (Nat × List Char)
  | [] => none
  | c :: cs =>
    match copyrightAt (c :: cs) with
    | some r => some r
    | none => copyrightYear cs

/-- Count of occurrences of the case-sensitive literal `<input`
(`(content.match(/<input/g) || []).length`); the pattern cannot overlap
itself, so counting match positions equals the JS global scan count. -/
def countInput : List Char → Nat
  | [] => 0
  | c :: cs => (if hasPrefixCl (c :: cs) "<input".data then 1 else 0) + countInput cs

/-- A "conversion killer" (defect): title and explanatory detail, as the
source's `type Killer`. -/
structure Killer where
  title : String
  detail : String
deriving Repr, DecidableEq

/-- List-of-characters view of a string, used to feed extracted text back
into `String` fields. -/
def strOf (s : List Char) : String := ⟨s⟩

/-- The generic call-to-action texts the source compares button labels
against. -/
def genericCTAList : List (List Char) :=
  ["mehr erfahren".data, "klicken sie hier".data, "weiter".data, "absenden".data]

def missingH1Killer : Killer :=
  ⟨"Fehlendes Nutzenversprechen (H1)",
   "Auf der Seite fehlt eine klare H1-Überschrift, um den Hauptnutzen auf den ersten Blick zu verdeutlichen."⟩

def weakH1Killer (text : List Char) : Killer :=
  ⟨"Schwaches Nutzenversprechen (H1)",
   "Die Hauptüberschrift \"" ++ strOf text ++ "\" ist möglicherweise zu kurz oder zu generisch, um den Kundennutzen klar zu kommunizieren."⟩

def titleKiller : Killer :=
  ⟨"Fehlender oder schwacher Seitentitel",
   "Der Seitentitel (im Browser-Tab sichtbar) fehlt oder ist zu kurz. Er ist entscheidend für SEO und Wiedererkennung."⟩

def metaKiller : Killer :=
  ⟨"Fehlende Meta-Beschreibung",
   "Die Meta-Beschreibung für Suchmaschinen fehlt. Eine riesige verpasste Chance, Nutzer zum Klicken zu animieren."⟩

def missingBtnKiller : Killer :=
  ⟨"Fehlender Call-to-Action Button",
   "Es wurde kein primärer <button>-Tag gefunden. Ein klarer Call-to-Action ist entscheidend für die Conversion."⟩

def genericBtnKiller (text : List Char) : Killer :=
  ⟨"Generische Call-to-Action Texte",
   "Mindestens ein Button verwendet einen generischen Text wie \"" ++ strOf text ++ "\". Nutzenorientierte Texte sind oft effektiver."⟩

def sslKiller : Killer :=
  ⟨"Unsichere Verbindung (Kein SSL)",
   "Die Webseite wird nicht über eine sichere HTTPS-Verbindung ausgeliefert, was Browser oft als unsicher markieren."⟩

def impressumKiller : Killer :=
  ⟨"Fehlendes Impressum",
   "Es wurde kein Link oder Hinweis auf ein Impressum gefunden, was in der DACH-Region rechtlich erforderlich ist und Vertrauen schafft."⟩

def datenschutzKiller : Killer :=
  ⟨"Fehlende Datenschutzerklärung",
   "Ein Link zur Datenschutzerklärung ist nach DSGVO Pflicht und ein wichtiges Vertrauenssignal für Besucher."⟩

def yearKiller (digits : List Char) : Killer :=
  ⟨"Veraltetes Copyright-Jahr",
   "Das Copyright-Jahr \"" ++ strOf digits ++ "\" ist nicht aktuell. Dies kann signalisieren, dass die Seite nicht mehr aktiv gepflegt wird."⟩

def socialKiller : Killer :=
  ⟨"Fehlender sozialer Beweis",
   "Es wurden keine Schlüsselwörter für sozialen Beweis (wie 'Kundenstimmen', 'Bewertungen') gefunden, was das Vertrauen beeinträchtigen kann."⟩

def formKiller (n : Nat) : Killer :=
  ⟨"Langes Formular",
   "Das Formular auf der Seite hat mit " ++ toString n ++ " Feldern eine hohe Hürde. Jedes Feld erhöht die Abbruchwahrscheinlichkeit."⟩

def autoplayKiller : Killer :=
  ⟨"Automatisch startende Medien",
   "Mindestens ein Video oder Audio-Element startet automatisch, was von vielen Nutzern als störend empfunden wird."⟩

/-- The first `<h1[^>]*>(.*?)<\/h1>/i` capture of the page. -/
def h1Group (content : List Char) : Option (List Char) :=
  firstTagMatch ['h', '1'] content

/-- The weak-H1 condition of the source:
`text.length < 15 || text.toLowerCase().includes("willkommen")` applied to
the cleaned capture. -/
def weakH1Cond (g : List Char) : Bool :=
  (cleanText g).length < 15 || containsCl (jsLower (cleanText g)) "willkommen".data

/-- H1 group of checks of `runHeuristicChecks` (v1.1, `src/api/analyze.ts`
lines 20–28): missing capture or empty capture pushes the missing-H1
defect, otherwise a short or generic heading pushes the weak-H1 defect. -/
def h1Checks (content : List Char) : List Killer :=
  match h1Group content with
  | none => [missingH1Killer]
  | some g =>
    if g.isEmpty then [missingH1Killer]
    else if weakH1Cond g then [weakH1Killer (cleanText g)] else []

/-- Title check (lines 30–33). -/
def titleCheck (content : List Char) : List Killer :=
  match firstTagMatch "title".data content with
  | none => [titleKiller]
  | some g =>
    if g.isEmpty || (cleanText g).length < 10 then [titleKiller] else []

/-- Meta-description check (lines 35–37). -/
def metaCheck (content : List Char) : List Killer :=
  if metaDescTest content then [] else [metaKiller]

/-- Is a button's cleaned lowercased label one of the generic CTA
texts? -/
def isGenericBtn (b : List Char) : Bool :=
  genericCTAList.contains (jsLower (cleanText b))

/-- The buttons whose cleaned lowercased label is one of the generic CTA
texts (`genericCTAs` in the source); the filter runs on the whole match
strings, so the tags are stripped by `cleanText`. -/
def genericButtons (content : List Char) : List (List Char) :=
  (allTagMatches "button".data content).filter isGenericBtn

/-- Call-to-action group of checks (lines 40–51). -/
def ctaChecks (content : List Char) : List Killer :=
  match allTagMatches "button".data content with
  | [] => [missingBtnKiller]
  | _ :: _ =>
    match genericButtons content with
    | [] => []
    | b0 :: _ => [genericBtnKiller (cleanText b0)]

/-- SSL check (lines 54–56): the URL, not the markup, is inspected. -/
def sslCheck (url : List Char) : List Killer :=
  if hasPrefixCl url "https://".data then [] else [sslKiller]

/-- Impressum check (lines 58–60). -/
def impressumCheck (content : List Char) : List Killer :=
  if containsCI content "impressum".data then [] else [impressumKiller]

/-- Privacy-policy check (lines 62–64). -/
def datenschutzCheck (content : List Char) : List Killer :=
  if containsCI content "datenschutz".data || containsCI content "privacy".data then []
  else [datenschutzKiller]

/-- Copyright-year check (lines 66–69); `currentYear` is the value of the
source's `new Date().getFullYear()` call at run time. -/
def copyrightCheck (content : List Char) (currentYear : Nat) : List Killer :=
  match copyrightYear content with
  | some (y, digits) => if y < currentYear then [yearKiller digits] else []
  | none => []

/-- Social-proof check (lines 71–73). -/
def socialCheck (content : List Char) : List Killer :=
  if containsCI content "kundenstimmen".data || containsCI content "bewertungen".data ||
      containsCI content "referenzen".data || containsCI content "erfahrungen".data then []
  else [socialKiller]

/-- Form-length check (lines 76–79). -/
def formCheck (content : List Char) : List Killer :=
  if 6 < countInput content then [formKiller (countInput content)] else []

/-- Autoplay check (lines 81–83). -/
def autoplayCheck (content : List Char) : List Killer :=
  if attrSearch "<video".data autoplayTail content ||
      attrSearch "<audio".data autoplayTail content then [autoplayKiller]
  else []

/-- `runHeuristicChecks` of `src/api/analyze.ts` (hybrid engine v1.1,
lines 15–86): the groups push their defects into `found` in declaration
order, which is exactly this concatenation. -/
def runHeuristicChecks (content url : String) (currentYear : Nat) : List Killer :=
  h1Checks content.data ++ titleCheck content.data ++ metaCheck content.data ++
    ctaChecks content.data ++ sslCheck url.data ++ impressumCheck content.data ++
    datenschutzCheck content.data ++ copyrightCheck content.data currentYear ++
    socialCheck content.data ++ formCheck content.data ++ autoplayCheck content.data

/-! ## The v1.0 hybrid engine (`src/api/analyze.ts`, second revision in the
file, lines 192–229): five checks, a single (non-global) button match. -/

def missingH1KillerV10 : Killer :=
  ⟨"Fehlendes Nutzenversprechen",
   "Auf der Seite fehlt eine klare H1-Überschrift, um den Hauptnutzen auf den ersten Blick zu verdeutlichen."⟩

def weakH1KillerV10 (text : List Char) : Killer :=
  ⟨"Schwaches Nutzenversprechen",
   "Die Hauptüberschrift \"" ++ strOf text ++ "\" ist möglicherweise zu kurz oder zu generisch, um den Kundennutzen klar zu kommunizieren."⟩

def missingBtnKillerV10 : Killer :=
  ⟨"Fehlende Handlungsaufforderung",
   "Es wurde kein primärer <button>-Tag gefunden. Ein klarer Call-to-Action ist entscheidend für die Conversion."⟩

def weakBtnKillerV10 (text : List Char) : Killer :=
  ⟨"Schwache Handlungsaufforderung",
   "Der Call-to-Action \"" ++ strOf text ++ "\" ist sehr generisch. Nutzenorientierte Texte wie \"Analyse starten\" sind oft effektiver."⟩

def impressumKillerV10 : Killer :=
  ⟨"Fehlendes Impressum",
   "Im Quellcode wurde kein Link oder Hinweis auf ein Impressum gefunden, was in der DACH-Region rechtlich erforderlich ist."⟩

def sslKillerV10 : Killer :=
  ⟨"Unsichere Verbindung (Kein SSL)",
   "Die Webseite wird nicht über eine sichere HTTPS-Verbindung ausgeliefert. Browser warnen Besucher oft vor solchen unsicheren Seiten."⟩

def h1ChecksV10 (content : List Char) : List Killer :=
  match h1Group content with
  | none => [missingH1KillerV10]
  | some g =>
    if g.isEmpty then [missingH1KillerV10]
    else if weakH1Cond g then [weakH1KillerV10 (cleanText g)] else []

def ctaChecksV10 (content : List Char) : List Killer :=
  match firstTagMatch "button".data content with
  | none => [missingBtnKillerV10]
  | some g =>
    if g.isEmpty then [missingBtnKillerV10]
    else if genericCTAList.contains (jsLower (cleanText g)) then [weakBtnKillerV10 (cleanText g)]
    else []

def impressumCheckV10 (content : List Char) : List Killer :=
  if containsCI content "impressum".data then [] else [impressumKillerV10]

def sslCheckV10 (url : List Char) : List Killer :=
  if hasPrefixCl url "https://".data then [] else [sslKillerV10]

/-- `runHeuristicChecks` of the v1.0 hybrid engine. -/
def runHeuristicChecksV10 (content url : String) : List Killer :=
  h1ChecksV10 content.data ++ ctaChecksV10 content.data ++
    impressumCheckV10 content.data ++ sslCheckV10 url.data

/-! ## Trigger predicates

One Boolean per catalog rule, read off the very conditions of the source;
`heuristicTriggeredCount` is the number of rules whose trigger condition
is satisfied, the count the specification calls `count(triggered rules)`. -/

def h1MissingTrig (c : List Char) : Bool :=
  match h1Group c with
  | none => true
  | some g => g.isEmpty

def h1WeakTrig (c : List Char) : Bool :=
  match h1Group c with
  | none => false
  | some g => !g.isEmpty && weakH1Cond g

def titleTrig (c : List Char) : Bool :=
  match firstTagMatch "title".data c with
  | none => true
  | some g => g.isEmpty || (cleanText g).length < 10

def metaTrig (c : List Char) : Bool := !metaDescTest c

def btnMissingTrig (c : List Char) : Bool := (allTagMatches "button".data c).isEmpty

def btnGenericTrig (c : List Char) : Bool :=
  !(allTagMatches "button".data c).isEmpty && !(genericButtons c).isEmpty

def sslTrig (u : List Char) : Bool := !hasPrefixCl u "https://".data

def impressumTrig (c : List Char) : Bool := !containsCI c "impressum".data

def datenschutzTrig (c : List Char) : Bool :=
  !(containsCI c "datenschutz".data || containsCI c "privacy".data)

def yearTrig (c : List Char) (currentYear : Nat) : Bool :=
  match copyrightYear c with
  | some (y, _) => y < currentYear
  | none => false

def socialTrig (c : List Char) : Bool :=
  !(containsCI c "kundenstimmen".data || containsCI c "bewertungen".data ||
    containsCI c "referenzen".data || containsCI c "erfahrungen".data)

def formTrig (c : List Char) : Bool := 6 < countInput c

def autoplayTrig (c : List Char) : Bool :=
  attrSearch "<video".data autoplayTail c || attrSearch "<audio".data autoplayTail c

def b2n (b : Bool) : Nat := if b then 1 else 0

/-- Number of v1.1 catalog rules whose trigger condition holds. -/
def heuristicTriggeredCount (content url : String) (currentYear : Nat) : Nat :=
  b2n (h1MissingTrig content.data) + b2n (h1WeakTrig content.data) +
    b2n (titleTrig content.data) + b2n (metaTrig content.data) +
    b2n (btnMissingTrig content.data) + b2n (btnGenericTrig content.data) +
    b2n (sslTrig url.data) + b2n (impressumTrig content.data) +
    b2n (datenschutzTrig content.data) + b2n (yearTrig content.data currentYear) +
    b2n (socialTrig content.data) + b2n (formTrig content.data) +
    b2n (autoplayTrig content.data)

/-! ## Responses, effects, result composition and handler models -/

/-- HTTP method, as far as the handlers distinguish it. -/
inductive Method where
  | options
  | post
  | other
deriving Repr, DecidableEq

/-- The observable response shapes of the handlers. -/
inductive Response where
  | ok200
  | methodNotAllowed (msg : String)
  | badRequest (msg : String)
  | special (note : String)
  | analysis (message : String) (topKillers : List Killer) (remainingKillers : Nat)
  | rateLimited (msg : String)
  | serverError (msg : String)
deriving Repr, DecidableEq

/-- The `topKillers` field of a response (empty for shapes without one). -/
def Response.topKillersOf : Response → List Killer
  | .analysis _ tk _ => tk
  | _ => []

/-- The `remainingKillers` field of a response (`0` for shapes without
one). -/
def Response.remainingOf : Response → Nat
  | .analysis _ _ r => r
  | _ => 0

/-- External interactions a handler can perform, in the order performed. -/
inductive Effect where
  | fetchPage
  | pageSpeedCall
  | heuristicsRun
  | llmCall
  | cacheRead
  | cacheWrite
  | rlRead
  | rlIncr
  | rlExpire
  | logWrite
deriving Repr, DecidableEq

/-- An uncaught JavaScript runtime error escaping the handler. -/
inductive JsError where
  | typeError
deriving Repr, DecidableEq

/-- The two canned entries of the hybrid engines' positive branch. -/
def solidBasisKiller : Killer :=
  ⟨"Solide technische Basis", "Die Seite scheint technisch gut aufgestellt zu sein."⟩

def goodStructureKiller : Killer :=
  ⟨"Gute Inhaltsstruktur", "Die grundlegende Struktur der Inhalte ist klar."⟩

/-- Result composition of the hybrid handlers (v1.0 lines 286–298 and
v1.1 lines 157–169 of `src/api/analyze.ts`): fewer than two combined
defects yield the canned positive result, otherwise the first two defects
are displayed. -/
def composeHybrid (host : String) (allKillers : List Killer) : Response :=
  if allKillers.length < 2 then
    .analysis ("Sehr gut! Auf " ++ host ++ " wurden kaum Schwachstellen gefunden.")
      [solidBasisKiller, goodStructureKiller] 0
  else
    .analysis ("Auf der Landing Page von " ++ host ++ " gibt es aktuell " ++
        toString allKillers.length ++ " potenzielle Conversion-Killer. Darunter:")
      (allKillers.take 2) (allKillers.length - 2)

/-- Result composition of the v3.3 LLM handler (`src/unnamed/part_000`
lines 175–203): zero defects give the congratulatory special case, a
total below 4 shows one defect with the good-news template, otherwise two
defects with the analysis-complete template; `remainingKillers` is
`Math.max(0, totalFound - shown.length)`. -/
def composeV33 (host : String) (totalFound : Nat) (topKillers : List Killer) : Response :=
  if totalFound == 0 then
    .special ("Glückwunsch! Auf " ++ host ++ " wurden keine gravierenden Conversion-Killer gefunden.")
  else if totalFound < 4 then
    .analysis ("Gute Nachrichten! Auf " ++ host ++ " wurde nur " ++ toString totalFound ++
        " " ++ (if totalFound == 1 then "potenzieller Conversion-Killer"
                else "potenzielle Conversion-Killer") ++ " gefunden. Der wichtigste ist:")
      (topKillers.take 1) (totalFound - (topKillers.take 1).length)
  else
    .analysis ("Analyse abgeschlossen. Auf " ++ host ++ " wurden " ++ toString totalFound ++
        " potenzielle Conversion-Killer identifiziert. Die gravierendsten sind:")
      (topKillers.take 2) (totalFound - (topKillers.take 2).length)

/-- URL normalization common to all handlers:
`if (url && !url.startsWith('http')) url = 'https://' + url`. -/
def normalizeUrl (s : String) : String :=
  if s ≠ "" && !hasPrefixCl s.data "http".data then "https://" ++ s else s

/-- Oracle inputs of the v1.1 handler: the page fetch outcome, the
PageSpeed defects (that helper returns its accumulated list even on API
failure), the hostname `new URL(url).hostname` yields for the validated
URL, and the current calendar year. -/
structure V11Oracle where
  fetch : Except Unit String
  psKillers : List Killer
  host : String
  year : Nat

/-- The v1.1 handler of `src/api/analyze.ts` (lines 126–177): CORS
preflight, method gate, URL normalization and syntactic validation, the
exempt-domain substring check, then the concurrently fetched page and
PageSpeed results feed the heuristic engine and the composed result. -/
def handlerV11 (method : Method) (bodyUrl : Option String) (o : V11Oracle) :
    Response × List Effect :=
  match method with
  | .options => (.ok200, [])
  | .other => (.methodNotAllowed "Nur POST-Anfragen erlaubt.", [])
  | .post =>
    match bodyUrl with
    | none => (.badRequest "Bitte gib eine gültige URL ein.", [])
    | some s =>
      let u := normalizeUrl s
      if u = "" || !containsCl u.data ['.'] then
        (.badRequest "Bitte gib eine gültige URL ein.", [])
      else if containsCl u.data "luqy.studio".data then
        (.special "Natürlich eine 10/10 Landing Page ;)", [])
      else
        match o.fetch with
        | .error _ =>
          (.serverError "Die Seite konnte nicht analysiert werden. Ist die URL korrekt und öffentlich erreichbar?",
           [.fetchPage, .pageSpeedCall])
        | .ok content =>
          (composeHybrid o.host (o.psKillers ++ runHeuristicChecks content u o.year),
           [.fetchPage, .pageSpeedCall, .heuristicsRun])

/-- Oracle inputs of the v1.0 handler. -/
structure V10Oracle where
  fetch : Except Unit String
  psKillers : List Killer
  host : String

/-- The v1.0 handler of `src/api/analyze.ts` (lines 261–305): like v1.1
but with no URL validation at all — a missing `url` field reaches
`url.includes('luqy.studio')` and raises an uncaught `TypeError`. -/
def handlerV10 (method : Method) (bodyUrl : Option String) (o : V10Oracle) :
    Except JsError (Response × List Effect) :=
  match method with
  | .options => .ok (.ok200, [])
  | .other => .ok (.methodNotAllowed "Nur POST-Anfragen erlaubt.", [])
  | .post =>
    match bodyUrl with
    | none => .error .typeError
    | some s =>
      let u := normalizeUrl s
      if containsCl u.data "luqy.studio".data then
        .ok (.special "Natürlich eine 10/10 Landing Page ;)", [])
      else
        match o.fetch with
        | .error _ =>
          .ok (.serverError "Die Seite konnte nicht analysiert werden. Ist die URL korrekt und öffentlich erreichbar?",
               [.fetchPage, .pageSpeedCall])
        | .ok content =>
          .ok (composeHybrid o.host (o.psKillers ++ runHeuristicChecksV10 content u),
               [.fetchPage, .pageSpeedCall, .heuristicsRun])

/-- Shape of the parsed LLM payload in v3.3:
`analysisResult.totalFound || 0` and `analysisResult.topKillers || []`. -/
structure LLMResult where
  totalFound : Option Nat
  topKillers : Option (List Killer)

/-- Oracle inputs of the v3.3 LLM handler: the platform URL parser, the
cache, the browserless page fetch, the Gemini call and its payload
processing, and the display hostname. -/
structure V33Oracle where
  urlParses : String → Bool
  cached : Option Response
  pageContent : Except Unit String
  geminiOk : Bool
  candidatesOk : Bool
  jsonOk : Bool
  parsed : LLMResult
  host : String

/-- The v3.3 handler of `src/unnamed/part_000` (lines 52–217): full input
validation (string type / trimmed emptiness / `new URL` parse) before the
exempt check, then cache, page fetch, LLM call and result composition. -/
def handlerV33 (method : Method) (bodyUrl : Option String) (o : V33Oracle) :
    Response × List Effect :=
  match method with
  | .options => (.ok200, [])
  | .other => (.methodNotAllowed "Methode nicht erlaubt. Nur POST-Anfragen sind zulässig.", [])
  | .post =>
    match bodyUrl with
    | none => (.badRequest "Bitte gib eine URL ein.", [])
    | some s =>
      if jsTrim s.data = [] then (.badRequest "Bitte gib eine URL ein.", [])
      else
        let u := normalizeUrl s
        if !o.urlParses u then (.badRequest "Das Format der URL ist ungültig.", [])
        else if containsCl u.data "luqy.studio".data then
          (.special "Diese Landing Page ist offensichtlich perfekt. 😉 Bereit für deine eigene?", [])
        else
          match o.cached with
          | some r => (r, [.cacheRead])
          | none =>
            match o.pageContent with
            | .error _ =>
              (.serverError "Die Webseite konnte nicht vollständig geladen werden. Möglicherweise ist sie sehr langsam oder blockiert Analysen.",
               [.cacheRead, .fetchPage])
            | .ok _ =>
              if !o.geminiOk then
                (.serverError "Die KI-Analyse konnte nicht durchgeführt werden.",
                 [.cacheRead, .fetchPage, .llmCall])
              else if !o.candidatesOk then
                (.serverError "Unerwartetes Format der KI-Antwort erhalten.",
                 [.cacheRead, .fetchPage, .llmCall])
              else if !o.jsonOk then
                (.serverError "Die Antwort der KI hatte ein ungültiges Format.",
                 [.cacheRead, .fetchPage, .llmCall])
              else
                let totalFound := o.parsed.totalFound.getD 0
                let tks := o.parsed.topKillers.getD []
                if totalFound == 0 then
                  (composeV33 o.host 0 tks, [.cacheRead, .fetchPage, .llmCall, .cacheWrite])
                else
                  (composeV33 o.host totalFound tks,
                   [.cacheRead, .fetchPage, .llmCall, .cacheWrite, .logWrite])

/-- Shape of the parsed LLM payload in v6.0 (`totalKillers`,
`topKillers`). -/
structure LLM2Result where
  totalKillers : Nat
  topKillers : List Killer

/-- Oracle inputs of the v6.0 handler. -/
structure V60Oracle where
  userRequests : Nat
  cached : Option Response
  pageFetch : Except Unit String
  geminiOk : Bool
  parsed : Option LLM2Result
  host : String

/-- The v6.0 handler of `src/unnamed/part_003` (lines 191–277): the
rate-limit counter is read and gated *before* the exempt-domain check;
the URL is never validated, so a missing `url` raises an uncaught
`TypeError` at the exempt check; the success path shows the LLM's
`topKillers` unsliced. -/
def handlerV60 (method : Method) (bodyUrl : Option String) (o : V60Oracle) :
    Except JsError (Response × List Effect) :=
  match method with
  | .options => .ok (.ok200, [])
  | .other => .ok (.methodNotAllowed "Nur POST-Anfragen erlaubt.", [])
  | .post =>
    if 2 ≤ o.userRequests then
      .ok (.rateLimited "Tageslimit von 2 Analysen erreicht.", [.rlRead])
    else
      match bodyUrl with
      | none => .error .typeError
      | some s =>
        let u := normalizeUrl s
        if containsCl u.data "luqy.studio".data then
          .ok (.special "Natürlich eine 10/10 Landing Page ;)", [.rlRead])
        else
          match o.cached with
          | some r => .ok (r, [.rlRead, .cacheRead, .rlIncr, .rlExpire])
          | none =>
            match o.pageFetch with
            | .error _ =>
              .ok (.serverError "Analyse fehlgeschlagen. Bitte versuche es erneut.",
                   [.rlRead, .cacheRead, .fetchPage])
            | .ok _ =>
              if !o.geminiOk then
                .ok (.serverError "Analyse fehlgeschlagen. Bitte versuche es erneut.",
                     [.rlRead, .cacheRead, .fetchPage, .llmCall])
              else
                match o.parsed with
                | none =>
                  .ok (.serverError "Analyse fehlgeschlagen. Bitte versuche es erneut.",
                       [.rlRead, .cacheRead, .fetchPage, .llmCall])
                | some ar =>
                  .ok (.analysis ("Auf der Landing Page von " ++ o.host ++ " gibt es aktuell " ++
                          toString ar.totalKillers ++ " Conversion-Killer. Darunter:")
                        ar.topKillers (ar.totalKillers - 2),
                       [.rlRead, .cacheRead, .fetchPage, .llmCall, .cacheWrite, .rlIncr,
                        .rlExpire, .logWrite])

/-! ## Instrumented engine for the totality claim

The JavaScript engine can only throw where a property of `null` or a
method of `undefined` is accessed; these accesses are made explicit below
(`jsIndex`, `jsStr`, `jsLen`), so that `runHeuristicChecksE` returns
`Except.error` precisely when the original code would raise. -/

/-- Like `firstTagMatch`, but returning the whole match together with the
captured group, as the JS match array `[whole, group]` does. -/
def firstTagMatchFull (tag : List Char) : List Char → Option (List Char × List Char)
  | [] => none
  | c :: cs =>
    match tagAt tag (c :: cs) with
    | some (ol, il) =>
      some ((c :: cs).take (ol + il + (closeOf tag).length), ((c :: cs).drop ol).take il)
    | none => firstTagMatchFull tag cs

/-- The JS match array of a single-match tag regex: `null`, or
`[whole, group]`. -/
def tagMatchArr (tag : List Char) (s : List Char) : Option (List (List Char)) :=
  match firstTagMatchFull tag s with
  | none => none
  | some (w, g) => some [w, g]

/-- Indexing a possibly-`null` match array: accessing an index of `null`
throws a `TypeError`; an out-of-bounds index yields `undefined`
(here `none`) without throwing. -/
def jsIndex (m : Option (List (List Char))) (i : Nat) : Except String (Option (List Char)) :=
  match m with
  | none => .error "TypeError: Cannot read properties of null"
  | some arr => .ok arr[i]?

/-- Calling a string method on a possibly-`undefined` value. -/
def jsStr : Option (List Char) → Except String (List Char)
  | none => .error "TypeError: undefined has no string methods"
  | some s => .ok s

/-- Reading `.length` of a possibly-`null` array. -/
def jsLen : Option (List (List Char)) → Except String Nat
  | none => .error "TypeError: Cannot read properties of null"
  | some arr => .ok arr.length

/-- Reading the elements of a possibly-`null` array. -/
def jsArr : Option (List (List Char)) → Except String (List (List Char))
  | none => .error "TypeError: Cannot read properties of null"
  | some arr => .ok arr

/-- JS string falsiness: `undefined` and `""` are falsy. -/
def jsFalsyStr : Option (List Char) → Bool
  | none => true
  | some [] => true
  | some (_ :: _) => false

/-- The H1 group of checks with explicit JS error propagation:
`if (!h1Match || !h1Match[1])` only indexes after the null check, and the
else branch cleans a string that the guard has shown to be truthy. -/
def h1ChecksE (c : List Char) : Except String (List Killer) := do
  let m := tagMatchArr ['h', '1'] c
  let cond ← if m.isNone then pure true else do
    let g ← jsIndex m 1
    pure (jsFalsyStr g)
  if cond then pure [missingH1Killer]
  else do
    let g ← jsIndex m 1
    let gs ← jsStr g
    pure (if weakH1Cond gs then [weakH1Killer (cleanText gs)] else [])

/-- The title check with explicit JS error propagation
(`!titleMatch || !titleMatch[1] || cleanText(titleMatch[1]).length < 10`). -/
def titleCheckE (c : List Char) : Except String (List Killer) := do
  let m := tagMatchArr "title".data c
  let cond ← if m.isNone then pure true else do
    let g ← jsIndex m 1
    if jsFalsyStr g then pure true
    else do
      let gs ← jsStr g
      pure (decide ((cleanText gs).length < 10))
  pure (if cond then [titleKiller] else [])

/-- The JS (nullable) result of the global button match. -/
def buttonMatchArr (c : List Char) : Option (List (List Char)) :=
  match allTagMatches "button".data c with
  | [] => none
  | l => some l

/-- The call-to-action group of checks with explicit JS error
propagation: `.length` is read only after the null check, and
`genericCTAs[0]` is cleaned only after `genericCTAs.length > 0`. -/
def ctaChecksE (c : List Char) : Except String (List Killer) := do
  let m := buttonMatchArr c
  let cond ← if m.isNone then pure true else do
    let n ← jsLen m
    pure (n == 0)
  if cond then pure [missingBtnKiller]
  else do
    let arr ← jsArr m
    let gen := arr.filter isGenericBtn
    if 0 < gen.length then do
      let g0 ← jsStr gen[0]?
      pure [genericBtnKiller (cleanText g0)]
    else pure []

/-- The whole v1.1 engine with explicit JS error propagation; the groups
without partial accesses are the pure segments themselves. -/
def runHeuristicChecksE (content url : String) (currentYear : Nat) :
    Except String (List Killer) := do
  let a ← h1ChecksE content.data
  let b ← titleCheckE content.data
  let d ← ctaChecksE content.data
  pure (a ++ b ++ metaCheck content.data ++ d ++ sslCheck url.data ++
    impressumCheck content.data ++ datenschutzCheck content.data ++
    copyrightCheck content.data currentYear ++ socialCheck content.data ++
    formCheck content.data ++ autoplayCheck content.data)

/-- A page that triggers exactly one catalog rule (the missing
Impressum): good heading, good title, meta description, specific button
label, privacy and social-proof keywords, no forms or media. -/
def singleKillerContent : String :=
  "<title>Beispiel Firma Startseite</title><meta name=\"description\"><h1>Wir steigern Ihren Umsatz messbar</h1><button>Jetzt Analyse starten</button><p>datenschutz kundenstimmen</p>"

/-! ## Substring lemmas -/

theorem hasPrefixCl_iff {pat s : List Char} :
    hasPrefixCl s pat = true ↔ ∃ r, s = pat ++ r := by
  induction pat generalizing s with
  | nil => simp [hasPrefixCl]
  | cons b bs ih =>
    cases s with
    | nil => simp [hasPrefixCl]
    | cons a as =>
      simp only [hasPrefixCl, Bool.and_eq_true, beq_iff_eq, ih, List.cons_append,
        List.cons.injEq]
      constructor
      · rintro ⟨rfl, r, rfl⟩; exact ⟨r, rfl, rfl⟩
      · rintro ⟨r, rfl, rfl⟩; exact ⟨rfl, r, rfl⟩

theorem containsCl_iff {pat s : List Char} :
    containsCl s pat = true ↔ ∃ p r, s = p ++ pat ++ r := by
  induction s with
  | nil =>
    simp only [containsCl, hasPrefixCl_iff]
    constructor
    · rintro ⟨r, h⟩; exact ⟨[], r, by simpa using h⟩
    · rintro ⟨p, r, h⟩
      rcases List.append_eq_nil.mp (List.append_eq_nil.mp h.symm).1 with ⟨rfl, rfl⟩
      exact ⟨r, by simpa using h⟩
  | cons a as ih =>
    simp only [containsCl, Bool.or_eq_true, hasPrefixCl_iff, ih]
    constructor
    · rintro (⟨r, h⟩ | ⟨p, r, rfl⟩)
      · exact ⟨[], r, by simpa using h⟩
      · exact ⟨a :: p, r, rfl⟩
    · rintro ⟨p, r, h⟩
      cases p with
      | nil => exact Or.inl ⟨r, by simpa using h⟩
      | cons x xs =>
        simp only [List.cons_append, List.cons.injEq] at h
        exact Or.inr ⟨xs, r, h.2⟩

/-- If a pattern that decomposes as `x ++ q ++ y` occurs in `s`, so does
`q`. -/
theorem containsCl_of_decomp {s pat x q y : List Char} (hd : pat = x ++ q ++ y)
    (h : containsCl s pat = true) : containsCl s q = true := by
  rcases containsCl_iff.mp h with ⟨p, r, rfl⟩
  subst hd
  exact containsCl_iff.mpr ⟨p ++ x, y ++ r, by simp⟩

/-- Occurrence is preserved by prepending. -/
theorem containsCl_append_left {s t pat : List Char} (h : containsCl s pat = true) :
    containsCl (t ++ s) pat = true := by
  rcases containsCl_iff.mp h with ⟨p, r, rfl⟩
  exact containsCl_iff.mpr ⟨t ++ p, r, by simp⟩

/-- A string containing a nonempty pattern is nonempty. -/
theorem ne_nil_of_containsCl {s pat : List Char} (hpat : pat ≠ [])
    (h : containsCl s pat = true) : s ≠ [] := by
  rcases containsCl_iff.mp h with ⟨p, r, rfl⟩
  simpa using fun h1 h2 _ => hpat h2

/-! ## The exempt-domain substring check -/

/-- The exempt literal decomposes around its dot. -/
theorem luqy_decomp : "luqy.studio".data = "luqy".data ++ ['.'] ++ "studio".data := by decide

/-- A URL containing the exempt literal survives normalization with the
occurrence intact. -/
theorem normalize_keeps_luqy {s : String}
    (h : containsCl s.data "luqy.studio".data = true) :
    containsCl (normalizeUrl s).data "luqy.studio".data = true := by
  unfold normalizeUrl
  split
  · rw [String.data_append]; exact containsCl_append_left h
  · exact h

/-- `handlerV11` returns the canned exempt result, with no effects, for
any POST whose `url` contains `luqy.studio` anywhere. -/
theorem handlerV11_exempt (s : String) (o : V11Oracle)
    (h : containsCl s.data "luqy.studio".data = true) :
    handlerV11 .post (some s) o = (.special "Natürlich eine 10/10 Landing Page ;)", []) := by
  have hnorm := normalize_keeps_luqy h
  have hdot : containsCl (normalizeUrl s).data ['.'] = true :=
    containsCl_of_decomp luqy_decomp hnorm
  have hne : ¬(normalizeUrl s = "") := by
    intro h0
    exact @ne_nil_of_containsCl (normalizeUrl s).data "luqy.studio".data (by decide) hnorm (by rw [h0])
  simp [handlerV11, hne, hdot, hnorm]

/-! ## Claim theorems -/

/-- C2: when zero defects trigger, the response is the special positive
result with no defect entries. In the v3.3 handler (`totalFound === 0`)
this is the congratulatory special case, which carries no defect list at
all, whatever `topKillers` the LLM supplied; in the hybrid handler the
zero-trigger input falls into the positive branch, whose displayed
entries are the two fixed positive notes, not defects produced by any
rule. -/
theorem c2_zero_total_special (host : String) (tks : List Killer) :
    composeV33 host 0 tks =
      .special ("Glückwunsch! Auf " ++ host ++ " wurden keine gravierenden Conversion-Killer gefunden.") ∧
    (composeV33 host 0 tks).topKillersOf = [] ∧
    (composeV33 host 0 tks).remainingOf = 0 ∧
    composeHybrid host [] =
      .analysis ("Sehr gut! Auf " ++ host ++ " wurden kaum Schwachstellen gefunden.")
        [solidBasisKiller, goodStructureKiller] 0 := by
  refine ⟨rfl, rfl, rfl, rfl⟩

/-- C3: with the low threshold 4 of the v3.3 composition, a positive
total below 4 displays exactly the first supplied defect with the
singular/good-news template and `remaining = totalFound - 1`; a total of
4 or more displays exactly the first two with the analysis-complete
template and `remaining = totalFound - 2`. The supplied list is assumed
to hold at least `min totalFound 2` entries, which the data flow
guarantees whenever `totalFound` defects were actually found. -/
theorem c3_low_threshold_selection (host : String) (n : Nat) (tks : List Killer)
    (hpos : 0 < n) (hlen : min n 2 ≤ tks.length) :
    (n < 4 →
      composeV33 host n tks =
        .analysis ("Gute Nachrichten! Auf " ++ host ++ " wurde nur " ++ toString n ++
            " " ++ (if n == 1 then "potenzieller Conversion-Killer"
                    else "potenzielle Conversion-Killer") ++ " gefunden. Der wichtigste ist:")
          (tks.take 1) (n - 1) ∧
      (tks.take 1).length = 1) ∧
    (4 ≤ n →
      composeV33 host n tks =
        .analysis ("Analyse abgeschlossen. Auf " ++ host ++ " wurden " ++ toString n ++
            " potenzielle Conversion-Killer identifiziert. Die gravierendsten sind:")
          (tks.take 2) (n - 2) ∧
      (tks.take 2).length = 2) := by
  have hn0 : ¬(n == 0) = true := by simpa using Nat.pos_iff_ne_zero.mp hpos
  constructor
  · intro h4
    have h1 : 1 ≤ tks.length := le_trans (by omega) hlen
    have ht1 : (tks.take 1).length = 1 := by
      rw [List.length_take]; omega
    refine ⟨?_, ht1⟩
    unfold composeV33
    rw [if_neg (by simpa using Nat.pos_iff_ne_zero.mp hpos), if_pos h4, ht1]
  · intro h4
    have h2 : 2 ≤ tks.length := le_trans (by omega) hlen
    have ht2 : (tks.take 2).length = 2 := by
      rw [List.length_take]; omega
    refine ⟨?_, ht2⟩
    unfold composeV33
    rw [if_neg (by simpa using Nat.pos_iff_ne_zero.mp hpos), if_neg (by omega), ht2]

/-- Witness for C3 at `totalFound = 3`: exactly one defect shown,
`remaining = 2`, singular phrasing. -/
theorem c3_low_threshold_selection_witness :
    composeV33 "beispiel.de" 3 [⟨"A", "a"⟩, ⟨"B", "b"⟩, ⟨"C", "c"⟩] =
      .analysis ("Gute Nachrichten! Auf beispiel.de wurde nur 3 potenzielle Conversion-Killer gefunden. Der wichtigste ist:")
        [⟨"A", "a"⟩] 2 ∧
    ([(⟨"A", "a"⟩ : Killer), ⟨"B", "b"⟩, ⟨"C", "c"⟩].take 1).length = 1 := by
  have h := (c3_low_threshold_selection "beispiel.de" 3
    [⟨"A", "a"⟩, ⟨"B", "b"⟩, ⟨"C", "c"⟩] (by decide) (by decide)).1 (by decide)
  simpa using h

/-- C9: the exemption test of the handler is a plain substring match on
the full (normalized) URL string — any request URL containing
`luqy.studio` anywhere, including in the path or query of a different
host, receives the canned special-case result with no effects
performed. -/
theorem c9_exempt_is_substring_match (s : String) (o : V11Oracle)
    (h : containsCl s.data "luqy.studio".data = true) :
    handlerV11 .post (some s) o = (.special "Natürlich eine 10/10 Landing Page ;)", []) :=
  handlerV11_exempt s o h

/-- Witness for C9: a URL whose host is an entirely different domain and
whose query merely mentions `luqy.studio` is exempted. -/
theorem c9_exempt_is_substring_match_witness :
    handlerV11 .post (some "https://boese-seite.de/pfad?ref=luqy.studio")
        ⟨.error (), [], "boese-seite.de", 2025⟩ =
      (.special "Natürlich eine 10/10 Landing Page ;)", []) :=
  c9_exempt_is_substring_match "https://boese-seite.de/pfad?ref=luqy.studio"
    ⟨.error (), [], "boese-seite.de", 2025⟩ (by decide)

/-- C10: in the hybrid handler the combined defect list is the PageSpeed
defects followed by the heuristic defects, and whenever at least two
PageSpeed defects trigger, the displayed `topKillers` are the first two
PageSpeed defects — no markup-heuristic defect is displayed. -/
theorem c10_pagespeed_defects_first :
    (∀ (s content : String) (o : V11Oracle),
      o.fetch = .ok content →
      normalizeUrl s ≠ "" →
      containsCl (normalizeUrl s).data ['.'] = true →
      containsCl (normalizeUrl s).data "luqy.studio".data = false →
      handlerV11 .post (some s) o =
        (composeHybrid o.host (o.psKillers ++ runHeuristicChecks content (normalizeUrl s) o.year),
         [.fetchPage, .pageSpeedCall, .heuristicsRun])) ∧
    (∀ (host : String) (ps heur : List Killer), 2 ≤ ps.length →
      (composeHybrid host (ps ++ heur)).topKillersOf = ps.take 2 ∧
      ∀ k ∈ (composeHybrid host (ps ++ heur)).topKillersOf, k ∈ ps) := by
  constructor
  · intro s content o hf hne hdot hluqy
    simp [handlerV11, hne, hdot, hluqy, hf]
  · intro host ps heur h2
    have hlen : ¬((ps ++ heur).length < 2) := by
      rw [List.length_append]; omega
    have hlen2 : ¬(ps.length + heur.length < 2) := by omega
    have htake : (ps ++ heur).take 2 = ps.take 2 := List.take_append_of_le_length h2
    constructor
    · simp [composeHybrid, hlen, hlen2, Response.topKillersOf, htake]
    · intro k hk
      simp only [composeHybrid, if_neg hlen, Response.topKillersOf, htake] at hk
      exact List.take_subset 2 ps hk

/-- Witness for C10: with two concrete PageSpeed defects ahead of the
heuristic ones, exactly those two are displayed. -/
theorem c10_pagespeed_defects_first_witness :
    handlerV11 .post (some "https://a.de") ⟨.ok "x", [⟨"P1", "p1"⟩, ⟨"P2", "p2"⟩], "a.de", 2025⟩ =
      (composeHybrid "a.de"
        ([⟨"P1", "p1"⟩, ⟨"P2", "p2"⟩] ++ runHeuristicChecks "x" (normalizeUrl "https://a.de") 2025),
       [.fetchPage, .pageSpeedCall, .heuristicsRun]) ∧
    (composeHybrid "b.de" ([⟨"P1", "p1"⟩, ⟨"P2", "p2"⟩] ++ [⟨"H1", "h1"⟩])).topKillersOf =
      [⟨"P1", "p1"⟩, ⟨"P2", "p2"⟩] := by
  constructor
  · exact c10_pagespeed_defects_first.1 "https://a.de" "x"
      ⟨.ok "x", [⟨"P1", "p1"⟩, ⟨"P2", "p2"⟩], "a.de", 2025⟩ rfl (by decide) (by decide) (by decide)
  · have h := (c10_pagespeed_defects_first.2 "b.de" [⟨"P1", "p1"⟩, ⟨"P2", "p2"⟩]
      [⟨"H1", "h1"⟩] (by decide)).1
    simpa using h

/-- Counterexample to C7 as stated: in the rate-limited v6.0 handler the
quota gate runs *before* the exempt check, so a request for the exempt
URL `https://luqy.studio` from a caller already at the quota receives the
429 quota response — not the canned special-case result — and the quota
counter has been read. -/
theorem c7_exempt_counterexample :
    handlerV60 .post (some "https://luqy.studio") ⟨2, none, .ok "", true, none, "luqy.studio"⟩ =
      .ok (.rateLimited "Tageslimit von 2 Analysen erreicht.", [.rlRead]) ∧
    containsCl (normalizeUrl "https://luqy.studio").data "luqy.studio".data = true := by
  exact ⟨rfl, by decide⟩

/-- C7 (amended): an exempt URL short-circuits to the canned result with
no extraction, rule evaluation or cache access in both handler families;
the variants without a quota gate (v1.1) perform no effect at all, while
the rate-limited v6.0 variant first reads the quota counter — and only
serves the canned result to callers still under the quota. -/
theorem c7_exempt_shortcircuit (s : String) (o60 : V60Oracle) (o11 : V11Oracle)
    (hq : o60.userRequests < 2)
    (h : containsCl s.data "luqy.studio".data = true) :
    handlerV60 .post (some s) o60 =
      .ok (.special "Natürlich eine 10/10 Landing Page ;)", [.rlRead]) ∧
    handlerV11 .post (some s) o11 = (.special "Natürlich eine 10/10 Landing Page ;)", []) := by
  constructor
  · have hnorm := normalize_keeps_luqy h
    have hq' : ¬(2 ≤ o60.userRequests) := by omega
    simp [handlerV60, hq', hnorm]
  · exact handlerV11_exempt s o11 h

/-- Witness for C7 (amended): an under-quota caller requesting the
exempt URL gets the canned result from both handlers. -/
theorem c7_exempt_shortcircuit_witness :
    handlerV60 .post (some "https://luqy.studio") ⟨0, none, .ok "", true, none, "x"⟩ =
      .ok (.special "Natürlich eine 10/10 Landing Page ;)", [.rlRead]) ∧
    handlerV11 .post (some "https://luqy.studio") ⟨.error (), [], "x", 2025⟩ =
      (.special "Natürlich eine 10/10 Landing Page ;)", []) :=
  c7_exempt_shortcircuit "https://luqy.studio" ⟨0, none, .ok "", true, none, "x"⟩
    ⟨.error (), [], "x", 2025⟩ (by decide) (by decide)

/-- Counterexample to C8 as stated: the v1.0 hybrid handler
(`src/api/analyze.ts`, second revision) has no guard on the `url` field —
a POST with a missing `url` dereferences `undefined` at the exempt check
and escapes with an uncaught `TypeError` (surfaced by the framework as a
generic 500), not with a 400 validation response. -/
theorem c8_validation_counterexample :
    handlerV10 .post none ⟨.error (), [], ""⟩ = .error .typeError := rfl

/-- C8 (amended): in the validating v3.3 handler every request whose
`url` is missing (or not a string), trims to the empty string, or fails
the platform URL parser is answered locally with a 400 and one of the
two specific validation messages, before any effect — no cache access,
no network fetch, no extraction. -/
theorem c8_validation_local (u : Option String) (o : V33Oracle)
    (h : match u with
         | none => True
         | some s => jsTrim s.data = [] ∨ o.urlParses (normalizeUrl s) = false) :
    ∃ m, handlerV33 .post u o = (.badRequest m, []) ∧
      (m = "Bitte gib eine URL ein." ∨ m = "Das Format der URL ist ungültig.") := by
  match u with
  | none => exact ⟨"Bitte gib eine URL ein.", rfl, Or.inl rfl⟩
  | some s =>
    by_cases htrim : jsTrim s.data = []
    · exact ⟨"Bitte gib eine URL ein.", by simp [handlerV33, htrim], Or.inl rfl⟩
    · have hparse : o.urlParses (normalizeUrl s) = false := by
        rcases h with h | h
        · exact absurd h htrim
        · exact h
      exact ⟨"Das Format der URL ist ungültig.", by simp [handlerV33, htrim, hparse],
        Or.inr rfl⟩

/-- Witness for C8 (amended): a missing `url` field yields the specific
400 message with no effects. -/
theorem c8_validation_local_witness :
    ∃ m, handlerV33 .post none
        ⟨fun _ => true, none, .ok "", true, true, true, ⟨none, none⟩, "h"⟩ =
        (.badRequest m, []) ∧
      (m = "Bitte gib eine URL ein." ∨ m = "Das Format der URL ist ungültig.") :=
  c8_validation_local none ⟨fun _ => true, none, .ok "", true, true, true, ⟨none, none⟩, "h"⟩
    trivial

/-! ## Segment lengths = triggered-rule indicators -/

theorem h1Checks_length (c : List Char) :
    (h1Checks c).length = b2n (h1MissingTrig c) + b2n (h1WeakTrig c) := by
  unfold h1Checks h1MissingTrig h1WeakTrig
  cases h1Group c with
  | none => rfl
  | some g =>
    by_cases hg : g.isEmpty <;> by_cases hw : weakH1Cond g <;> simp [hg, hw, b2n]

theorem titleCheck_length (c : List Char) :
    (titleCheck c).length = b2n (titleTrig c) := by
  unfold titleCheck titleTrig
  cases firstTagMatch "title".data c with
  | none => rfl
  | some g => by_cases h : g = [] ∨ (cleanText g).length < 10 <;> simp [h, b2n]

theorem metaCheck_length (c : List Char) :
    (metaCheck c).length = b2n (metaTrig c) := by
  unfold metaCheck metaTrig
  cases h : metaDescTest c <;> simp [b2n]

theorem ctaChecks_length (c : List Char) :
    (ctaChecks c).length = b2n (btnMissingTrig c) + b2n (btnGenericTrig c) := by
  unfold ctaChecks btnMissingTrig btnGenericTrig
  cases hb : allTagMatches "button".data c with
  | nil => rfl
  | cons x xs =>
    cases hg : genericButtons c <;> simp [hb, hg, b2n]

theorem sslCheck_length (u : List Char) :
    (sslCheck u).length = b2n (sslTrig u) := by
  unfold sslCheck sslTrig
  cases h : hasPrefixCl u "https://".data <;> simp [b2n]

theorem impressumCheck_length (c : List Char) :
    (impressumCheck c).length = b2n (impressumTrig c) := by
  unfold impressumCheck impressumTrig
  cases h : containsCI c "impressum".data <;> simp [b2n]

theorem datenschutzCheck_length (c : List Char) :
    (datenschutzCheck c).length = b2n (datenschutzTrig c) := by
  unfold datenschutzCheck datenschutzTrig
  cases h : containsCI c "datenschutz".data || containsCI c "privacy".data <;> simp_all [b2n]

theorem copyrightCheck_length (c : List Char) (y : Nat) :
    (copyrightCheck c y).length = b2n (yearTrig c y) := by
  unfold copyrightCheck yearTrig
  cases copyrightYear c with
  | none => rfl
  | some p =>
    cases p with
    | mk v ds => by_cases h : v < y <;> simp [h, b2n]

theorem socialCheck_length (c : List Char) :
    (socialCheck c).length = b2n (socialTrig c) := by
  unfold socialCheck socialTrig
  cases h : containsCI c "kundenstimmen".data || containsCI c "bewertungen".data ||
      containsCI c "referenzen".data || containsCI c "erfahrungen".data <;> simp_all [b2n]

theorem formCheck_length (c : List Char) :
    (formCheck c).length = b2n (formTrig c) := by
  unfold formCheck formTrig
  by_cases h : 6 < countInput c <;> simp [h, b2n]

theorem autoplayCheck_length (c : List Char) :
    (autoplayCheck c).length = b2n (autoplayTrig c) := by
  unfold autoplayCheck autoplayTrig
  cases h : attrSearch "<video".data autoplayTail c || attrSearch "<audio".data autoplayTail c <;>
    simp_all [b2n]

/-- The engine emits exactly one defect per triggered rule. -/
theorem runHeuristicChecks_length (content url : String) (year : Nat) :
    (runHeuristicChecks content url year).length =
      heuristicTriggeredCount content url year := by
  unfold runHeuristicChecks heuristicTriggeredCount
  simp only [List.length_append, h1Checks_length, titleCheck_length, metaCheck_length,
    ctaChecks_length, sslCheck_length, impressumCheck_length, datenschutzCheck_length,
    copyrightCheck_length, socialCheck_length, formCheck_length, autoplayCheck_length]
  omega

/-- C1 (amended): the reported total equals the number of rules whose
trigger condition was satisfied, and `remainingKillers` always equals
`max(0, totalFound - |topKillers|)`; `|topKillers| = min(2, totalFound)`
holds in the main branch (`totalFound ≥ 2`), while the positive branch
(`totalFound < 2`) instead displays the two fixed canned entries. -/
theorem c1_response_invariants :
    (∀ (content url : String) (year : Nat),
      (runHeuristicChecks content url year).length =
        heuristicTriggeredCount content url year) ∧
    (∀ (host : String) (killers : List Killer),
      (2 ≤ killers.length →
        composeHybrid host killers =
          .analysis ("Auf der Landing Page von " ++ host ++ " gibt es aktuell " ++
              toString killers.length ++ " potenzielle Conversion-Killer. Darunter:")
            (killers.take 2) (killers.length - 2) ∧
        (composeHybrid host killers).topKillersOf.length = min 2 killers.length ∧
        (composeHybrid host killers).remainingOf =
          killers.length - (composeHybrid host killers).topKillersOf.length) ∧
      (killers.length < 2 →
        composeHybrid host killers =
          .analysis ("Sehr gut! Auf " ++ host ++ " wurden kaum Schwachstellen gefunden.")
            [solidBasisKiller, goodStructureKiller] 0 ∧
        (composeHybrid host killers).remainingOf =
          killers.length - (composeHybrid host killers).topKillersOf.length)) := by
  constructor
  · exact runHeuristicChecks_length
  · intro host killers
    constructor
    · intro h2
      have hlen : ¬(killers.length < 2) := by omega
      have htk : (killers.take 2).length = 2 := by rw [List.length_take]; omega
      refine ⟨by simp [composeHybrid, hlen], ?_, ?_⟩
      · simp [composeHybrid, hlen, Response.topKillersOf, htk]; omega
      · simp [composeHybrid, hlen, Response.topKillersOf, Response.remainingOf, htk]
    · intro h2
      refine ⟨by simp [composeHybrid, h2], ?_⟩
      simp [composeHybrid, h2, Response.topKillersOf, Response.remainingOf]
      omega

/-- Witness for C1 (amended): three triggered defects give two displayed
and one remaining. -/
theorem c1_response_invariants_witness :
    composeHybrid "x.de" [⟨"A", "a"⟩, ⟨"B", "b"⟩, ⟨"C", "c"⟩] =
      .analysis ("Auf der Landing Page von x.de gibt es aktuell 3 potenzielle Conversion-Killer. Darunter:")
        [⟨"A", "a"⟩, ⟨"B", "b"⟩] 1 := by
  have h := ((c1_response_invariants.2 "x.de" [⟨"A", "a"⟩, ⟨"B", "b"⟩, ⟨"C", "c"⟩]).1
    (by decide)).1
  simpa using h

set_option maxRecDepth 40000 in
/-- Counterexample to C1 as stated: a page on which exactly one catalog
rule triggers (the missing Impressum) is answered by the positive branch,
whose displayed `topKillers` list has two entries — more than
`min(2, totalFound) = 1`. -/
theorem c1_response_invariants_counterexample :
    (runHeuristicChecks singleKillerContent "https://beispiel.de" 2025).length = 1 ∧
    (composeHybrid "beispiel.de"
        (runHeuristicChecks singleKillerContent "https://beispiel.de" 2025)).topKillersOf.length = 2 ∧
    ¬((composeHybrid "beispiel.de"
          (runHeuristicChecks singleKillerContent "https://beispiel.de" 2025)).topKillersOf.length ≤
        min 2 (runHeuristicChecks singleKillerContent "https://beispiel.de" 2025).length) := by
  refine ⟨by decide, by decide, by decide⟩

/-! ## Locating the missing-H1 defect -/

/-- If `<h1` never occurs (case-insensitively), the H1 regex finds no
match. -/
theorem firstTagMatch_eq_none_of_no_open (c : List Char)
    (h : containsCI c ('<' :: 'h' :: '1' :: []) = false) :
    firstTagMatch ['h', '1'] c = none := by
  induction c with
  | nil => rfl
  | cons a as ih =>
    simp only [containsCI, Bool.or_eq_false_iff] at h
    have hopen : tagOpenLen ['h', '1'] (a :: as) = none := by
      unfold tagOpenLen
      simp [h.1]
    unfold firstTagMatch tagAt
    rw [hopen]
    exact ih h.2

theorem missing_ne_weak (t : List Char) : missingH1Killer ≠ weakH1Killer t := by
  intro h
  have h2 : ("Fehlendes Nutzenversprechen (H1)" : String) =
      "Schwaches Nutzenversprechen (H1)" := congrArg Killer.title h
  exact absurd h2 (by decide)

theorem missing_ne_genericBtn (t : List Char) : missingH1Killer ≠ genericBtnKiller t := by
  intro h
  have h2 : ("Fehlendes Nutzenversprechen (H1)" : String) =
      "Generische Call-to-Action Texte" := congrArg Killer.title h
  exact absurd h2 (by decide)

theorem missing_ne_year (t : List Char) : missingH1Killer ≠ yearKiller t := by
  intro h
  have h2 : ("Fehlendes Nutzenversprechen (H1)" : String) =
      "Veraltetes Copyright-Jahr" := congrArg Killer.title h
  exact absurd h2 (by decide)

theorem missing_ne_form (n : Nat) : missingH1Killer ≠ formKiller n := by
  intro h
  have h2 : ("Fehlendes Nutzenversprechen (H1)" : String) =
      "Langes Formular" := congrArg Killer.title h
  exact absurd h2 (by decide)

/-- Membership of the missing-H1 defect in its own segment is exactly the
absent-or-empty first-match signal. -/
theorem missing_mem_h1Checks (c : List Char) :
    missingH1Killer ∈ h1Checks c ↔ h1MissingTrig c = true := by
  unfold h1Checks h1MissingTrig
  cases h1Group c with
  | none => simp
  | some g =>
    by_cases hg : g.isEmpty <;> by_cases hw : weakH1Cond g <;>
      simp [hg, hw, missing_ne_weak]

theorem missing_not_mem_titleCheck (c : List Char) :
    missingH1Killer ∉ titleCheck c := by
  intro hmem
  unfold titleCheck at hmem
  split at hmem
  · exact absurd (by simpa using hmem) (by decide : missingH1Killer ≠ titleKiller)
  · split at hmem
    · exact absurd (by simpa using hmem) (by decide : missingH1Killer ≠ titleKiller)
    · simp at hmem

theorem missing_not_mem_metaCheck (c : List Char) :
    missingH1Killer ∉ metaCheck c := by
  intro hmem
  unfold metaCheck at hmem
  split at hmem
  · simp at hmem
  · exact absurd (by simpa using hmem) (by decide : missingH1Killer ≠ metaKiller)

theorem missing_not_mem_ctaChecks (c : List Char) :
    missingH1Killer ∉ ctaChecks c := by
  intro hmem
  unfold ctaChecks at hmem
  split at hmem
  · exact absurd (by simpa using hmem) (by decide : missingH1Killer ≠ missingBtnKiller)
  · split at hmem
    · simp at hmem
    · exact missing_ne_genericBtn _ (by simpa using hmem)

theorem missing_not_mem_sslCheck (u : List Char) :
    missingH1Killer ∉ sslCheck u := by
  intro hmem
  unfold sslCheck at hmem
  split at hmem
  · simp at hmem
  · exact absurd (by simpa using hmem) (by decide : missingH1Killer ≠ sslKiller)

theorem missing_not_mem_impressumCheck (c : List Char) :
    missingH1Killer ∉ impressumCheck c := by
  intro hmem
  unfold impressumCheck at hmem
  split at hmem
  · simp at hmem
  · exact absurd (by simpa using hmem) (by decide : missingH1Killer ≠ impressumKiller)

theorem missing_not_mem_datenschutzCheck (c : List Char) :
    missingH1Killer ∉ datenschutzCheck c := by
  intro hmem
  unfold datenschutzCheck at hmem
  split at hmem
  · simp at hmem
  · exact absurd (by simpa using hmem) (by decide : missingH1Killer ≠ datenschutzKiller)

theorem missing_not_mem_copyrightCheck (c : List Char) (y : Nat) :
    missingH1Killer ∉ copyrightCheck c y := by
  intro hmem
  unfold copyrightCheck at hmem
  split at hmem
  · split at hmem
    · exact missing_ne_year _ (by simpa using hmem)
    · simp at hmem
  · simp at hmem

theorem missing_not_mem_socialCheck (c : List Char) :
    missingH1Killer ∉ socialCheck c := by
  intro hmem
  unfold socialCheck at hmem
  split at hmem
  · simp at hmem
  · exact absurd (by simpa using hmem) (by decide : missingH1Killer ≠ socialKiller)

theorem missing_not_mem_formCheck (c : List Char) :
    missingH1Killer ∉ formCheck c := by
  intro hmem
  unfold formCheck at hmem
  split at hmem
  · exact missing_ne_form _ (by simpa using hmem)
  · simp at hmem

theorem missing_not_mem_autoplayCheck (c : List Char) :
    missingH1Killer ∉ autoplayCheck c := by
  intro hmem
  unfold autoplayCheck at hmem
  split at hmem
  · exact absurd (by simpa using hmem) (by decide : missingH1Killer ≠ autoplayKiller)
  · simp at hmem

/-- C4 (amended): the missing-value-proposition defect is emitted exactly
when the engine's first single-line `<h1…>…</h1>` regex match is absent
or captures empty text. In particular markup with no `<h1` occurrence
always triggers it; markup whose *first* match cleans to length ≥ 15
without the generic phrase does not trigger it — but a page may contain
such a heading elsewhere and still trigger the defect (see the
counterexample). -/
theorem c4_missing_h1_characterization (content url : String) (year : Nat) :
    (containsCI content.data ('<' :: 'h' :: '1' :: []) = false →
      missingH1Killer ∈ runHeuristicChecks content url year) ∧
    (missingH1Killer ∈ runHeuristicChecks content url year ↔
      h1MissingTrig content.data = true) := by
  have hmem : missingH1Killer ∈ runHeuristicChecks content url year ↔
      h1MissingTrig content.data = true := by
    simp [runHeuristicChecks, List.mem_append, missing_mem_h1Checks,
      missing_not_mem_titleCheck, missing_not_mem_metaCheck, missing_not_mem_ctaChecks,
      missing_not_mem_sslCheck, missing_not_mem_impressumCheck,
      missing_not_mem_datenschutzCheck, missing_not_mem_copyrightCheck,
      missing_not_mem_socialCheck, missing_not_mem_formCheck, missing_not_mem_autoplayCheck]
  refine ⟨?_, hmem⟩
  intro h
  apply hmem.mpr
  unfold h1MissingTrig h1Group
  rw [firstTagMatch_eq_none_of_no_open content.data h]

/-- Witness for C4 (amended): the empty document has no heading and the
defect is emitted. -/
theorem c4_missing_h1_characterization_witness :
    missingH1Killer ∈ runHeuristicChecks "" "https://x.de" 2025 :=
  (c4_missing_h1_characterization "" "https://x.de" 2025).1 (by decide)

set_option maxRecDepth 40000 in
/-- Counterexample to C4 as stated: this markup contains a heading whose
cleaned text has 33 ≥ 15 characters and no generic phrase, yet the
missing-value-proposition defect is emitted, because the *first*
`<h1…>…</h1>` match captures empty text. -/
theorem c4_missing_h1_counterexample :
    "<h1></h1><h1>Eine klare starke Nutzenbotschaft</h1>".data =
      "<h1></h1>".data ++ "<h1>".data ++ "Eine klare starke Nutzenbotschaft".data ++
        "</h1>".data ++ [] ∧
    15 ≤ (cleanText "Eine klare starke Nutzenbotschaft".data).length ∧
    containsCl (jsLower (cleanText "Eine klare starke Nutzenbotschaft".data))
        "willkommen".data = false ∧
    missingH1Killer ∈
      runHeuristicChecks "<h1></h1><h1>Eine klare starke Nutzenbotschaft</h1>"
        "https://x.de" 2025 := by
  refine ⟨by decide, by decide, by decide, by decide⟩

/-- The copyright segment vanishes under the not-copyright filter. -/
theorem copyright_filter_empty (c : List Char) (y : Nat) :
    (copyrightCheck c y).filter (fun k => !(k.title == "Veraltetes Copyright-Jahr")) = [] := by
  unfold copyrightCheck
  split
  · split
    · simp [yearKiller]
    · rfl
  · rfl

/-- C6 (amended): the engine is deterministic in markup, URL *and* the
calendar year read from the ambient clock — erasing the copyright-year
defect, the output does not depend on the year at all, and runs that
observe the same year agree completely. The original claim fails because
of the clock read (see the counterexample). -/
theorem c6_determinism_modulo_clock (content url : String) (y1 y2 : Nat) :
    (runHeuristicChecks content url y1).filter
        (fun k => !(k.title == "Veraltetes Copyright-Jahr")) =
      (runHeuristicChecks content url y2).filter
        (fun k => !(k.title == "Veraltetes Copyright-Jahr")) ∧
    (copyrightCheck content.data y1 = copyrightCheck content.data y2 →
      runHeuristicChecks content url y1 = runHeuristicChecks content url y2) := by
  constructor
  · unfold runHeuristicChecks
    simp only [List.filter_append, copyright_filter_empty]
  · intro h
    unfold runHeuristicChecks
    rw [h]

/-- Witness for C6 (amended): on a page with no copyright notice the
clock year is irrelevant. -/
theorem c6_determinism_modulo_clock_witness :
    runHeuristicChecks "" "https://x.de" 2020 = runHeuristicChecks "" "https://x.de" 2021 :=
  (c6_determinism_modulo_clock "" "https://x.de" 2020 2021).2 rfl

set_option maxRecDepth 40000 in
/-- Counterexample to C6 as stated: the same markup and URL analysed at
clock years 2020 and 2021 produce different defect lists — the engine
reads `new Date().getFullYear()`, so "the same markup and url" does not
determine the output. -/
theorem c6_determinism_counterexample :
    runHeuristicChecks "© 2020" "https://beispiel.de" 2020 ≠
      runHeuristicChecks "© 2020" "https://beispiel.de" 2021 := by
  decide

/-! ## Totality of the instrumented engine -/

/-- The single-match regex result is the second component of the full
match. -/
theorem firstTagMatch_eq_map_full (tag : List Char) (s : List Char) :
    firstTagMatch tag s = (firstTagMatchFull tag s).map Prod.snd := by
  induction s with
  | nil => rfl
  | cons a as ih =>
    unfold firstTagMatch firstTagMatchFull
    cases tagAt tag (a :: as) with
    | some p => cases p; rfl
    | none => exact ih

theorem h1ChecksE_eq_ok (c : List Char) : h1ChecksE c = .ok (h1Checks c) := by
  unfold h1ChecksE h1Checks h1Group tagMatchArr
  rw [firstTagMatch_eq_map_full]
  cases firstTagMatchFull ['h', '1'] c with
  | none => rfl
  | some p =>
    cases p with
    | mk w g =>
      cases g with
      | nil => rfl
      | cons x xs => rfl

theorem titleCheckE_eq_ok (c : List Char) : titleCheckE c = .ok (titleCheck c) := by
  unfold titleCheckE titleCheck tagMatchArr
  rw [firstTagMatch_eq_map_full]
  cases firstTagMatchFull "title".data c with
  | none => rfl
  | some p =>
    cases p with
    | mk w g =>
      cases g with
      | nil => rfl
      | cons x xs =>
        by_cases h : (cleanText (x :: xs)).length < 10 <;>
          simp [jsIndex, jsStr, jsFalsyStr, h, Bind.bind, Except.bind, Functor.map, Except.map,
            Pure.pure, Except.pure]

theorem ctaChecksE_eq_ok (c : List Char) : ctaChecksE c = .ok (ctaChecks c) := by
  unfold ctaChecksE ctaChecks buttonMatchArr genericButtons
  cases hb : allTagMatches "button".data c with
  | nil => rfl
  | cons x xs =>
    cases hf : (x :: xs).filter isGenericBtn with
    | nil =>
      simp [jsLen, jsArr, jsIndex, jsStr, hf, Bind.bind, Except.bind, Functor.map, Except.map,
        Pure.pure, Except.pure]
    | cons b bs =>
      simp [jsLen, jsArr, jsIndex, jsStr, hf, Bind.bind, Except.bind, Functor.map, Except.map,
        Pure.pure, Except.pure]

/-- C5: the heuristic extraction is total — the instrumented engine, in
which every JS `null`/`undefined` dereference raises, never raises: the
source's guards cover every partial access, and the result is the pure
defect list. On the empty document every structural extractor yields its
deterministic "absent" signal, giving the seven absence defects. -/
theorem c5_engine_total (content url : String) (year : Nat) :
    runHeuristicChecksE content url year = .ok (runHeuristicChecks content url year) ∧
    runHeuristicChecks "" "https://beispiel.de" year =
      [missingH1Killer, titleKiller, metaKiller, missingBtnKiller, impressumKiller,
       datenschutzKiller, socialKiller] := by
  constructor
  · unfold runHeuristicChecksE runHeuristicChecks
    rw [h1ChecksE_eq_ok, titleCheckE_eq_ok, ctaChecksE_eq_ok]
    rfl
  · rfl
